import Mathlib

/-!
Verification of the drone proximity-warning system.

The embedding models the two monitor variants of the repository:
`DroneProximityMonitor.check_once` in `src/core/proximity_monitor.py`
(the request/response check used by the Flask service) and
`DroneProximityMonitor.monitor` in `src/proximity_warning.py`
(the continuous loop of the standalone script).

Python floats are modelled as real numbers; MAVLink messages are modelled
by the fields that the code reads; a timed-out `recv_match` is `none`.
Side effects (printed lines, `set_mode_send` commands) are modelled as
explicit outputs of the cycle functions.
-/

namespace ProximityWarning

/-- A `GPS_RAW_INT` MAVLink message as read by `_read_gps`:
the code uses only `msg.lat` and `msg.lon` (integers, degrees × 1e7). -/
structure GpsRawInt where
  lat : ℤ
  lon : ℤ
deriving DecidableEq

/-- A `LOCAL_POSITION_NED` MAVLink message as read by `_read_altitude`:
the code uses `msg.get_srcSystem()` and `msg.z` (NED, so z is negative up). -/
structure LocalPositionNed where
  srcSystem : ℕ
  z : ℝ

/-- `_read_gps` (`src/core/proximity_monitor.py` lines 66-70,
`src/proximity_warning.py` lines 84-99): if a message arrived within the
timeout, return `(msg.lat / 1e7, msg.lon / 1e7)`, else `None`. -/
noncomputable def read_gps (msg : Option GpsRawInt) : Option (ℝ × ℝ) :=
  match msg with
  | some m => some ((m.lat : ℝ) / 1e7, (m.lon : ℝ) / 1e7)
  | none => none

/-- `_read_altitude` (`src/core/proximity_monitor.py` lines 72-76,
`src/proximity_warning.py` lines 101-113): if a message arrived, return
`(msg.get_srcSystem(), -msg.z)` (NED frame, z is negative up), else `None`. -/
def read_altitude (msg : Option LocalPositionNed) : Option (ℕ × ℝ) :=
  match msg with
  | some m => some (m.srcSystem, -m.z)
  | none => none

/-- The mutable per-instance state of a `DroneProximityMonitor`
(both variants declare the same fields in `__init__`). -/
structure MonitorState where
  h_threshold : ℝ
  v_threshold : ℝ
  latlon1 : Option (ℝ × ℝ)
  latlon2 : Option (ℝ × ℝ)
  altitude1 : Option ℝ
  altitude2 : Option ℝ
  sysid1 : Option ℕ
  sysid2 : Option ℕ

/-- `__init__`: thresholds stored, all telemetry fields start as `None`. -/
def initState (h_threshold v_threshold : ℝ) : MonitorState :=
  { h_threshold := h_threshold
    v_threshold := v_threshold
    latlon1 := none, latlon2 := none
    altitude1 := none, altitude2 := none
    sysid1 := none, sysid2 := none }

/-- The four `recv_match` outcomes of one polling cycle: `none` models a
read that timed out with no message. -/
structure CycleMsgs where
  gps1 : Option GpsRawInt
  gps2 : Option GpsRawInt
  pos1 : Option LocalPositionNed
  pos2 : Option LocalPositionNed

/-- The state-update step shared verbatim by both variants
(`src/core/proximity_monitor.py` lines 33-45 and
`src/proximity_warning.py` lines 145-152): read both links, then merge
each non-`None` read into the stored fields (`if gps1: self.latlon1 = gps1`
etc.); a `None` read leaves its fields untouched. -/
noncomputable def mergeState (s : MonitorState) (m : CycleMsgs) : MonitorState :=
  let gps1 := read_gps m.gps1
  let gps2 := read_gps m.gps2
  let pos1 := read_altitude m.pos1
  let pos2 := read_altitude m.pos2
  { s with
    latlon1 := match gps1 with | some g => some g | none => s.latlon1
    latlon2 := match gps2 with | some g => some g | none => s.latlon2
    sysid1 := match pos1 with | some p => some p.1 | none => s.sysid1
    altitude1 := match pos1 with | some p => some p.2 | none => s.altitude1
    sysid2 := match pos2 with | some p => some p.1 | none => s.sysid2
    altitude2 := match pos2 with | some p => some p.2 | none => s.altitude2 }

/-- `math.radians`: degrees to radians. -/
noncomputable def radians (d : ℝ) : ℝ := d * (Real.pi / 180)

/-- `math.atan2 y x`: the standard two-argument arctangent. -/
noncomputable def atan2 (y x : ℝ) : ℝ :=
  if 0 < x then Real.arctan (y / x)
  else if x < 0 ∧ 0 ≤ y then Real.arctan (y / x) + Real.pi
  else if x < 0 ∧ y < 0 then Real.arctan (y / x) - Real.pi
  else if x = 0 ∧ 0 < y then Real.pi / 2
  else if x = 0 ∧ y < 0 then -(Real.pi / 2)
  else 0

/-- `_haversine` (`src/core/proximity_monitor.py` lines 21-29,
`src/proximity_warning.py` lines 65-82): great-circle distance in meters,
Earth radius 6371000 m. -/
noncomputable def haversine (lat1 lon1 lat2 lon2 : ℝ) : ℝ :=
  let R : ℝ := 6371000
  let phi1 := radians lat1
  let phi2 := radians lat2
  let dphi := radians (lat2 - lat1)
  let dlambda := radians (lon2 - lon1)
  let a := Real.sin (dphi / 2) ^ 2 +
    Real.cos phi1 * Real.cos phi2 * Real.sin (dlambda / 2) ^ 2
  R * (2 * atan2 (Real.sqrt a) (Real.sqrt (1 - a)))

/-- The vertical-distance expression of both variants
(`src/core/proximity_monitor.py` lines 50-51,
`src/proximity_warning.py` lines 160-162):
`abs(self.altitude1 - self.altitude2)` if both are not `None`, else `None`. -/
def verticalDistance (altitude1 altitude2 : Option ℝ) : Option ℝ :=
  match altitude1, altitude2 with
  | some a1, some a2 => some |a1 - a2|
  | _, _ => none

/-- Python's `round` to an integer: round-half-to-even (banker's rounding). -/
noncomputable def roundHalfEven (x : ℝ) : ℤ :=
  if Int.fract x = 1 / 2 then (if Even ⌊x⌋ then ⌊x⌋ else ⌊x⌋ + 1) else round x

/-- Python's `round(x, 2)`: two-decimal rounding. -/
noncomputable def round2 (x : ℝ) : ℝ := (roundHalfEven (x * 100) : ℝ) / 100

/-- The dict returned by `check_once`. An outer `none` models a key that is
absent from the dict (the `NO DATA` branch returns `{"status": "NO DATA"}`
with no other keys); the inner option of the sysid fields models a present
key holding Python `None`. -/
structure ProximityResult where
  horizontal_distance_m : Option ℝ
  vertical_distance_m : Option (Option ℝ)
  status : String
  sysid1 : Option (Option ℕ)
  sysid2 : Option (Option ℕ)

/-- `check_once` (`src/core/proximity_monitor.py` lines 31-64): read both
links once, merge into the stored state, then classify. Returns the updated
state, the result dict, and the list of hold commands dispatched — the
function body contains no `set_mode_send` call, so that list is `[]` in
every branch. -/
noncomputable def checkOnce (s : MonitorState) (m : CycleMsgs) :
    MonitorState × ProximityResult × List (Option ℕ × ℕ) :=
  let s1 := mergeState s m
  match s1.latlon1, s1.latlon2 with
  | some p, some q =>
    let h_dist := haversine p.1 p.2 q.1 q.2
    let v_dist := verticalDistance s1.altitude1 s1.altitude2
    let status :=
      match v_dist with
      | some v => if h_dist < s1.h_threshold ∧ v < s1.v_threshold then "DANGER" else "SAFE"
      | none => "SAFE"
    (s1,
     { horizontal_distance_m := some (round2 h_dist)
       vertical_distance_m := some (v_dist.map round2)
       status := status
       sysid1 := some s1.sysid1
       sysid2 := some s1.sysid2 },
     [])
  | _, _ =>
    (s1,
     { horizontal_distance_m := none
       vertical_distance_m := none
       status := "NO DATA"
       sysid1 := none
       sysid2 := none },
     [])

/-- The status line printed by one cycle of the continuous loop. -/
inductive LineTag where
  /-- `[WARNING] ... too close! H: .., V: ..` -/
  | warning
  /-- `[INFO] ... close (H: ..), vertical separation safe` -/
  | infoCloseVertSafe
  /-- `[INFO] Safe. H: .., V: ..` -/
  | infoSafeWithVert
  /-- `[INFO] Safe. H: ..` -/
  | infoSafeNoVert
  /-- nothing printed: a position is still unknown -/
  | noLine
deriving DecidableEq

/-- The observable output of one cycle of `monitor`: the printed line and
the hold commands dispatched via `_set_mode_hold` (drone id, link index). -/
structure CycleOutput where
  line : LineTag
  holds : List (Option ℕ × ℕ)

/-- One iteration of the `while True` loop of `monitor`
(`src/proximity_warning.py` lines 140-186): read both links, merge, then
if both positions are known compare distances — warn and dispatch
`_set_mode_hold` to both drones only when the horizontal distance is below
`h_threshold` and the vertical distance is known and below `v_threshold`. -/
noncomputable def monitorCycle (s : MonitorState) (m : CycleMsgs) :
    MonitorState × CycleOutput :=
  let s1 := mergeState s m
  match s1.latlon1, s1.latlon2 with
  | some p, some q =>
    let distance := haversine p.1 p.2 q.1 q.2
    let vert_distance := verticalDistance s1.altitude1 s1.altitude2
    if distance < s1.h_threshold then
      match vert_distance with
      | some v =>
        if v < s1.v_threshold then
          (s1, { line := LineTag.warning, holds := [(s1.sysid1, 1), (s1.sysid2, 2)] })
        else
          (s1, { line := LineTag.infoCloseVertSafe, holds := [] })
      | none => (s1, { line := LineTag.infoCloseVertSafe, holds := [] })
    else
      match vert_distance with
      | some _ => (s1, { line := LineTag.infoSafeWithVert, holds := [] })
      | none => (s1, { line := LineTag.infoSafeNoVert, holds := [] })
  | _, _ => (s1, { line := LineTag.noLine, holds := [] })

/-- The state after `n` cycles of the continuous loop, fed by the message
stream `msgs` (cycle `k` consumes `msgs k`). -/
noncomputable def monitorRun (s : MonitorState) (msgs : ℕ → CycleMsgs) : ℕ → MonitorState
  | 0 => s
  | n + 1 => (monitorCycle (monitorRun s msgs n) (msgs n)).1

/-- The observable output of cycle `n` of the continuous loop. -/
noncomputable def monitorOutput (s : MonitorState) (msgs : ℕ → CycleMsgs) (n : ℕ) :
    CycleOutput :=
  (monitorCycle (monitorRun s msgs n) (msgs n)).2

/-- The monitor states reachable from construction by any interleaving of
`check_once` calls and continuous-loop cycles, with arbitrary read outcomes. -/
inductive Reachable : MonitorState → Prop
  | init (h_threshold v_threshold : ℝ) : Reachable (initState h_threshold v_threshold)
  | stepCheck (s : MonitorState) (m : CycleMsgs) :
      Reachable s → Reachable (checkOnce s m).1
  | stepMonitor (s : MonitorState) (m : CycleMsgs) :
      Reachable s → Reachable (monitorCycle s m).1

lemma checkOnce_fst (s : MonitorState) (m : CycleMsgs) :
    (checkOnce s m).1 = mergeState s m := by
  unfold checkOnce
  dsimp only
  split <;> rfl

lemma monitorCycle_fst (s : MonitorState) (m : CycleMsgs) :
    (monitorCycle s m).1 = mergeState s m := by
  unfold monitorCycle
  dsimp only
  repeat' split
  all_goals rfl

lemma mergeState_thresholds (s : MonitorState) (m : CycleMsgs) :
    (mergeState s m).h_threshold = s.h_threshold ∧
    (mergeState s m).v_threshold = s.v_threshold :=
  ⟨rfl, rfl⟩

lemma mergeState_gps1_none (s : MonitorState) (m : CycleMsgs) (h : m.gps1 = none) :
    (mergeState s m).latlon1 = s.latlon1 := by
  simp [mergeState, read_gps, h]

lemma mergeState_gps2_none (s : MonitorState) (m : CycleMsgs) (h : m.gps2 = none) :
    (mergeState s m).latlon2 = s.latlon2 := by
  simp [mergeState, read_gps, h]

lemma mergeState_pos1_none (s : MonitorState) (m : CycleMsgs) (h : m.pos1 = none) :
    (mergeState s m).sysid1 = s.sysid1 ∧ (mergeState s m).altitude1 = s.altitude1 := by
  simp [mergeState, read_altitude, h]

lemma mergeState_pos2_none (s : MonitorState) (m : CycleMsgs) (h : m.pos2 = none) :
    (mergeState s m).sysid2 = s.sysid2 ∧ (mergeState s m).altitude2 = s.altitude2 := by
  simp [mergeState, read_altitude, h]

lemma haversine_self (lat lon : ℝ) : haversine lat lon lat lon = 0 := by
  unfold haversine
  dsimp only
  simp only [sub_self]
  have h0 : radians 0 = 0 := by simp [radians]
  rw [h0]
  norm_num [atan2, Real.arctan_zero]

/-- C8: the haversine horizontal-distance function is symmetric —
swapping the two coordinate pairs leaves the distance unchanged. -/
theorem haversine_symmetric (lat1 lon1 lat2 lon2 : ℝ) :
    haversine lat1 lon1 lat2 lon2 = haversine lat2 lon2 lat1 lon1 := by
  unfold haversine
  dsimp only
  have hsin : ∀ u v : ℝ,
      Real.sin (radians (u - v) / 2) ^ 2 = Real.sin (radians (v - u) / 2) ^ 2 := by
    intro u v
    have h : radians (u - v) / 2 = -(radians (v - u) / 2) := by unfold radians; ring
    rw [h, Real.sin_neg, neg_sq]
  rw [hsin lat2 lat1, hsin lon2 lon1,
    mul_comm (Real.cos (radians lat1)) (Real.cos (radians lat2))]

/-- C5: `check_once` never dispatches a corrective action: for every stored
state and every outcome of the four reads its hold-command output is empty;
it only merges the reads into the stored state and returns the result. -/
theorem check_once_no_dispatch (s : MonitorState) (m : CycleMsgs) :
    (checkOnce s m).2.2 = [] ∧ (checkOnce s m).1 = mergeState s m := by
  refine ⟨?_, checkOnce_fst s m⟩
  unfold checkOnce
  dsimp only
  repeat' split
  all_goals rfl

/-- C2: the result status of `check_once` is `"NO DATA"` exactly when,
after the cycle's reads are merged, at least one vehicle's stored
latitude/longitude is still unset. -/
theorem check_once_no_data_iff (s : MonitorState) (m : CycleMsgs) :
    ((checkOnce s m).2.1.status = "NO DATA") ↔
      ((mergeState s m).latlon1 = none ∨ (mergeState s m).latlon2 = none) := by
  unfold checkOnce
  dsimp only
  rcases h1 : (mergeState s m).latlon1 with _ | p <;>
    rcases h2 : (mergeState s m).latlon2 with _ | q <;>
      simp only [h1, h2] <;>
      repeat' split
  all_goals simp

/-- C7: the vertical distance computed by a check equals `|alt1 - alt2|`
(hence is non-negative) whenever both stored positive-up altitudes are
known, and is absent (`none`), not zero, whenever either is unknown. -/
theorem vertical_distance_spec (x y : ℝ) (a : Option ℝ) :
    verticalDistance (some x) (some y) = some |x - y| ∧
    0 ≤ |x - y| ∧
    verticalDistance none a = none ∧
    verticalDistance a none = none := by
  refine ⟨rfl, abs_nonneg _, rfl, ?_⟩
  cases a <;> rfl

/-- C1: whenever both vehicles' positions are known after the merge,
`check_once` returns status `"DANGER"` iff the horizontal distance is
strictly below `h_threshold` and the vertical distance is known and
strictly below `v_threshold`; every other known-position combination
(including vertical distance unknown) yields `"SAFE"`. -/
theorem check_once_danger_iff (s : MonitorState) (m : CycleMsgs) (p q : ℝ × ℝ)
    (h1 : (mergeState s m).latlon1 = some p)
    (h2 : (mergeState s m).latlon2 = some q) :
    (((checkOnce s m).2.1.status = "DANGER") ↔
      (haversine p.1 p.2 q.1 q.2 < s.h_threshold ∧
       ∃ v, verticalDistance (mergeState s m).altitude1 (mergeState s m).altitude2 = some v ∧
         v < s.v_threshold)) ∧
    (((checkOnce s m).2.1.status = "SAFE") ↔
      ¬ (haversine p.1 p.2 q.1 q.2 < s.h_threshold ∧
        ∃ v, verticalDistance (mergeState s m).altitude1 (mergeState s m).altitude2 = some v ∧
          v < s.v_threshold)) := by
  have hth : (mergeState s m).h_threshold = s.h_threshold := rfl
  have htv : (mergeState s m).v_threshold = s.v_threshold := rfl
  unfold checkOnce
  dsimp only
  rcases hv : verticalDistance (mergeState s m).altitude1 (mergeState s m).altitude2 with _ | v
  · simp [h1, h2, hv]
  · simp only [h1, h2, hv, hth, htv]
    by_cases hc : haversine p.1 p.2 q.1 q.2 < s.h_threshold ∧ v < s.v_threshold
    · rw [if_pos hc]
      refine ⟨iff_of_true rfl ⟨hc.1, v, rfl, hc.2⟩, iff_of_false (by decide) ?_⟩
      exact fun hn => hn ⟨hc.1, v, rfl, hc.2⟩
    · rw [if_neg hc]
      constructor
      · refine iff_of_false (by decide) ?_
        rintro ⟨hh, v', hv', hlt⟩
        injection hv' with e
        exact hc ⟨hh, e ▸ hlt⟩
      · refine iff_of_true rfl ?_
        rintro ⟨hh, v', hv', hlt⟩
        injection hv' with e
        exact hc ⟨hh, e ▸ hlt⟩

/-- Witness for C1: two coincident positions (horizontal distance 0 m) at
altitudes 100 m and 102 m with thresholds 15 m / 5 m classify as `DANGER`. -/
theorem check_once_danger_iff_witness :
    (checkOnce (initState 15 5)
      { gps1 := some ⟨0, 0⟩, gps2 := some ⟨0, 0⟩
        pos1 := some ⟨1, -100⟩, pos2 := some ⟨2, -102⟩ }).2.1.status = "DANGER" := by
  have h1 : (mergeState (initState 15 5)
      { gps1 := some ⟨0, 0⟩, gps2 := some ⟨0, 0⟩
        pos1 := some ⟨1, -100⟩, pos2 := some ⟨2, -102⟩ }).latlon1 = some ((0 : ℝ), (0 : ℝ)) := by
    norm_num [mergeState, read_gps]
  have h2 : (mergeState (initState 15 5)
      { gps1 := some ⟨0, 0⟩, gps2 := some ⟨0, 0⟩
        pos1 := some ⟨1, -100⟩, pos2 := some ⟨2, -102⟩ }).latlon2 = some ((0 : ℝ), (0 : ℝ)) := by
    norm_num [mergeState, read_gps]
  refine (check_once_danger_iff _ _ _ _ h1 h2).1.mpr ⟨?_, 2, ?_, ?_⟩
  · show haversine 0 0 0 0 < (initState 15 5).h_threshold
    rw [haversine_self]
    norm_num [initState]
  · show verticalDistance (some (-(-100 : ℝ))) (some (-(-102 : ℝ))) = some 2
    unfold verticalDistance
    norm_num
  · show (2 : ℝ) < (initState 15 5).v_threshold
    norm_num [initState]

/-- C4: stale carry-forward — in a cycle of `check_once` or of the
continuous loop, a timed-out GPS read leaves that vehicle's stored
position unchanged, and a timed-out local-position read leaves that
vehicle's stored system id and altitude unchanged; a missing message
never clears or alters a field. -/
theorem stale_carry_forward (s : MonitorState) (m : CycleMsgs) :
    (m.gps1 = none →
      (checkOnce s m).1.latlon1 = s.latlon1 ∧ (monitorCycle s m).1.latlon1 = s.latlon1) ∧
    (m.pos1 = none →
      (checkOnce s m).1.sysid1 = s.sysid1 ∧ (checkOnce s m).1.altitude1 = s.altitude1 ∧
      (monitorCycle s m).1.sysid1 = s.sysid1 ∧ (monitorCycle s m).1.altitude1 = s.altitude1) ∧
    (m.gps2 = none →
      (checkOnce s m).1.latlon2 = s.latlon2 ∧ (monitorCycle s m).1.latlon2 = s.latlon2) ∧
    (m.pos2 = none →
      (checkOnce s m).1.sysid2 = s.sysid2 ∧ (checkOnce s m).1.altitude2 = s.altitude2 ∧
      (monitorCycle s m).1.sysid2 = s.sysid2 ∧ (monitorCycle s m).1.altitude2 = s.altitude2) := by
  rw [checkOnce_fst, monitorCycle_fst]
  exact ⟨fun h => ⟨mergeState_gps1_none s m h, mergeState_gps1_none s m h⟩,
    fun h => ⟨(mergeState_pos1_none s m h).1, (mergeState_pos1_none s m h).2,
      (mergeState_pos1_none s m h).1, (mergeState_pos1_none s m h).2⟩,
    fun h => ⟨mergeState_gps2_none s m h, mergeState_gps2_none s m h⟩,
    fun h => ⟨(mergeState_pos2_none s m h).1, (mergeState_pos2_none s m h).2,
      (mergeState_pos2_none s m h).1, (mergeState_pos2_none s m h).2⟩⟩

/-- Witness for C4: a populated state run through a cycle in which all four
reads time out keeps every telemetry field, for both variants. -/
theorem stale_carry_forward_witness :
    ((checkOnce
        { h_threshold := 15, v_threshold := 5
          latlon1 := some (1, 2), latlon2 := some (3, 4)
          altitude1 := some 10, altitude2 := some 20
          sysid1 := some 7, sysid2 := some 8 }
        { gps1 := none, gps2 := none, pos1 := none, pos2 := none }).1.latlon1 = some (1, 2)) ∧
    ((monitorCycle
        { h_threshold := 15, v_threshold := 5
          latlon1 := some (1, 2), latlon2 := some (3, 4)
          altitude1 := some 10, altitude2 := some 20
          sysid1 := some 7, sysid2 := some 8 }
        { gps1 := none, gps2 := none, pos1 := none, pos2 := none }).1.latlon1 = some (1, 2)) ∧
    ((checkOnce
        { h_threshold := 15, v_threshold := 5
          latlon1 := some (1, 2), latlon2 := some (3, 4)
          altitude1 := some 10, altitude2 := some 20
          sysid1 := some 7, sysid2 := some 8 }
        { gps1 := none, gps2 := none, pos1 := none, pos2 := none }).1.sysid1 = some 7) ∧
    ((checkOnce
        { h_threshold := 15, v_threshold := 5
          latlon1 := some (1, 2), latlon2 := some (3, 4)
          altitude1 := some 10, altitude2 := some 20
          sysid1 := some 7, sysid2 := some 8 }
        { gps1 := none, gps2 := none, pos1 := none, pos2 := none }).1.altitude1 = some 10) ∧
    ((monitorCycle
        { h_threshold := 15, v_threshold := 5
          latlon1 := some (1, 2), latlon2 := some (3, 4)
          altitude1 := some 10, altitude2 := some 20
          sysid1 := some 7, sysid2 := some 8 }
        { gps1 := none, gps2 := none, pos1 := none, pos2 := none }).1.sysid2 = some 8) ∧
    ((monitorCycle
        { h_threshold := 15, v_threshold := 5
          latlon1 := some (1, 2), latlon2 := some (3, 4)
          altitude1 := some 10, altitude2 := some 20
          sysid1 := some 7, sysid2 := some 8 }
        { gps1 := none, gps2 := none, pos1 := none, pos2 := none }).1.altitude2 = some 20) := by
  refine ⟨((stale_carry_forward _ _).1 rfl).1, ((stale_carry_forward _ _).1 rfl).2,
    ((stale_carry_forward _ _).2.1 rfl).1, ((stale_carry_forward _ _).2.1 rfl).2.1,
    ((stale_carry_forward _ _).2.2.2 rfl).2.2.1, ((stale_carry_forward _ _).2.2.2 rfl).2.2.2⟩

/-- C3 (amended): the continuous loop's warning/dispatch condition and the
`DANGER` condition of `check_once` are the same predicate — for every state
and read outcome the cycle prints a warning (equivalently, dispatches hold
commands) iff `check_once` on that same state and reads returns `"DANGER"`. -/
theorem monitor_dispatch_iff_danger (s : MonitorState) (m : CycleMsgs) :
    (((monitorCycle s m).2.line = LineTag.warning) ↔
      ((checkOnce s m).2.1.status = "DANGER")) ∧
    (((monitorCycle s m).2.holds ≠ []) ↔
      ((checkOnce s m).2.1.status = "DANGER")) := by
  unfold monitorCycle checkOnce
  dsimp only
  rcases h1 : (mergeState s m).latlon1 with _ | p <;>
    rcases h2 : (mergeState s m).latlon2 with _ | q <;>
      simp only [h1, h2] <;>
      try simp
  rcases hv : verticalDistance (mergeState s m).altitude1 (mergeState s m).altitude2 with _ | v <;>
    simp only [hv]
  · split <;> simp
  · by_cases hh : haversine p.1 p.2 q.1 q.2 < (mergeState s m).h_threshold <;>
      by_cases hvlt : v < (mergeState s m).v_threshold
    · rw [if_pos hh, if_pos hvlt, if_pos ⟨hh, hvlt⟩]
      simp
    · rw [if_pos hh, if_neg hvlt, if_neg (fun hc => hvlt hc.2)]
      simp
    · rw [if_neg hh, if_neg (fun hc => hh hc.1)]
      simp
    · rw [if_neg hh, if_neg (fun hc => hh hc.1)]
      simp

/-- Counterexample for C3: with coincident known positions (horizontal
distance 0 m, below the 15 m threshold) and no altitude ever received, the
OR-rule would flag the pair as too close, but the loop cycle prints no
warning and dispatches nothing, and `check_once` likewise reports `SAFE`. -/
theorem monitor_or_rule_counterexample :
    haversine 0 0 0 0 < 15 ∧
    (monitorCycle
        { h_threshold := 15, v_threshold := 5
          latlon1 := some (0, 0), latlon2 := some (0, 0)
          altitude1 := none, altitude2 := none
          sysid1 := none, sysid2 := none }
        { gps1 := none, gps2 := none, pos1 := none, pos2 := none }).2.line ≠
      LineTag.warning ∧
    (monitorCycle
        { h_threshold := 15, v_threshold := 5
          latlon1 := some (0, 0), latlon2 := some (0, 0)
          altitude1 := none, altitude2 := none
          sysid1 := none, sysid2 := none }
        { gps1 := none, gps2 := none, pos1 := none, pos2 := none }).2.holds = [] ∧
    (checkOnce
        { h_threshold := 15, v_threshold := 5
          latlon1 := some (0, 0), latlon2 := some (0, 0)
          altitude1 := none, altitude2 := none
          sysid1 := none, sysid2 := none }
        { gps1 := none, gps2 := none, pos1 := none, pos2 := none }).2.1.status = "SAFE" := by
  refine ⟨by rw [haversine_self]; norm_num, ?_, ?_, ?_⟩ <;>
    simp [monitorCycle, checkOnce, mergeState, read_gps, read_altitude,
      verticalDistance, haversine_self]

/-- C6: in every cycle of the continuous loop in which the pair is
classified as dangerously close (both positions known after the merge,
horizontal distance below `h_threshold`, vertical distance known and below
`v_threshold`), that same cycle prints the warning line and dispatches a
hold command to both vehicles; since this holds at every cycle index, the
command is re-issued on every subsequent cycle the classification
persists, with no de-duplication across cycles. -/
theorem monitor_danger_dispatches_both (s : MonitorState) (msgs : ℕ → CycleMsgs)
    (n : ℕ) (p q : ℝ × ℝ) (v : ℝ)
    (h1 : (mergeState (monitorRun s msgs n) (msgs n)).latlon1 = some p)
    (h2 : (mergeState (monitorRun s msgs n) (msgs n)).latlon2 = some q)
    (hh : haversine p.1 p.2 q.1 q.2 < (monitorRun s msgs n).h_threshold)
    (hv : verticalDistance (mergeState (monitorRun s msgs n) (msgs n)).altitude1
            (mergeState (monitorRun s msgs n) (msgs n)).altitude2 = some v)
    (hvlt : v < (monitorRun s msgs n).v_threshold) :
    (monitorOutput s msgs n).line = LineTag.warning ∧
    (monitorOutput s msgs n).holds =
      [((mergeState (monitorRun s msgs n) (msgs n)).sysid1, 1),
       ((mergeState (monitorRun s msgs n) (msgs n)).sysid2, 2)] := by
  have hth : (mergeState (monitorRun s msgs n) (msgs n)).h_threshold =
      (monitorRun s msgs n).h_threshold := rfl
  have htv : (mergeState (monitorRun s msgs n) (msgs n)).v_threshold =
      (monitorRun s msgs n).v_threshold := rfl
  unfold monitorOutput monitorCycle
  dsimp only
  simp only [h1, h2, hv, hth, htv]
  rw [if_pos hh, if_pos hvlt]
  exact ⟨rfl, rfl⟩

/-- Witness for C6: a stream that keeps both vehicles coincident at
altitudes 100 m and 102 m (thresholds 15 m / 5 m) makes the loop print the
warning and dispatch hold commands to both vehicles at cycle 0 and again
at cycle 1. -/
theorem monitor_danger_dispatches_both_witness :
    ((monitorOutput (initState 15 5)
        (fun _ => { gps1 := some ⟨0, 0⟩, gps2 := some ⟨0, 0⟩
                    pos1 := some ⟨1, -100⟩, pos2 := some ⟨2, -102⟩ }) 0).line =
      LineTag.warning ∧
     (monitorOutput (initState 15 5)
        (fun _ => { gps1 := some ⟨0, 0⟩, gps2 := some ⟨0, 0⟩
                    pos1 := some ⟨1, -100⟩, pos2 := some ⟨2, -102⟩ }) 0).holds =
      [(some 1, 1), (some 2, 2)]) ∧
    ((monitorOutput (initState 15 5)
        (fun _ => { gps1 := some ⟨0, 0⟩, gps2 := some ⟨0, 0⟩
                    pos1 := some ⟨1, -100⟩, pos2 := some ⟨2, -102⟩ }) 1).line =
      LineTag.warning ∧
     (monitorOutput (initState 15 5)
        (fun _ => { gps1 := some ⟨0, 0⟩, gps2 := some ⟨0, 0⟩
                    pos1 := some ⟨1, -100⟩, pos2 := some ⟨2, -102⟩ }) 1).holds =
      [(some 1, 1), (some 2, 2)]) := by
  constructor
  · have h := monitor_danger_dispatches_both (initState 15 5)
      (fun _ => { gps1 := some ⟨0, 0⟩, gps2 := some ⟨0, 0⟩
                  pos1 := some ⟨1, -100⟩, pos2 := some ⟨2, -102⟩ }) 0
      ((0 : ℝ), (0 : ℝ)) ((0 : ℝ), (0 : ℝ)) 2
      (by norm_num [monitorRun, mergeState, read_gps])
      (by norm_num [monitorRun, mergeState, read_gps])
      (by rw [haversine_self]; norm_num [monitorRun, initState])
      (by norm_num [monitorRun, mergeState, read_altitude, verticalDistance])
      (by norm_num [monitorRun, initState])
    exact ⟨h.1, by rw [h.2]; norm_num [monitorRun, mergeState, read_altitude]⟩
  · have h := monitor_danger_dispatches_both (initState 15 5)
      (fun _ => { gps1 := some ⟨0, 0⟩, gps2 := some ⟨0, 0⟩
                  pos1 := some ⟨1, -100⟩, pos2 := some ⟨2, -102⟩ }) 1
      ((0 : ℝ), (0 : ℝ)) ((0 : ℝ), (0 : ℝ)) 2
      (by norm_num [monitorRun, monitorCycle_fst, mergeState, read_gps])
      (by norm_num [monitorRun, monitorCycle_fst, mergeState, read_gps])
      (by rw [haversine_self]
          norm_num [monitorRun, monitorCycle_fst, mergeState, initState])
      (by norm_num [monitorRun, monitorCycle_fst, mergeState, read_altitude,
            verticalDistance])
      (by norm_num [monitorRun, monitorCycle_fst, mergeState, initState])
    exact ⟨h.1, by
      rw [h.2]
      norm_num [monitorRun, monitorCycle_fst, mergeState, read_altitude]⟩

/-- Counterexample for C9: with nothing ever received, `check_once`
returns the `"NO DATA"` dict, and that dict carries no `sysid1`/`sysid2`
keys (outer `none` = key absent), contrary to the claim that every result
contains them. -/
theorem no_data_result_omits_sysids :
    (checkOnce (initState 15 5)
        { gps1 := none, gps2 := none, pos1 := none, pos2 := none }).2.1.status =
      "NO DATA" ∧
    (checkOnce (initState 15 5)
        { gps1 := none, gps2 := none, pos1 := none, pos2 := none }).2.1.sysid1 = none ∧
    (checkOnce (initState 15 5)
        { gps1 := none, gps2 := none, pos1 := none, pos2 := none }).2.1.sysid2 = none := by
  refine ⟨?_, ?_, ?_⟩ <;>
    simp [checkOnce, mergeState, read_gps, read_altitude, initState]

/-- C9 (amended): a result of the request/response check carries the
`sysid1` and `sysid2` keys (possibly holding null) exactly when its status
is not `"NO DATA"`; the `"NO DATA"` result carries only the status key. -/
theorem result_sysid_fields_iff (s : MonitorState) (m : CycleMsgs) :
    (((checkOnce s m).2.1.sysid1.isSome) ↔ ((checkOnce s m).2.1.status ≠ "NO DATA")) ∧
    (((checkOnce s m).2.1.sysid2.isSome) ↔ ((checkOnce s m).2.1.status ≠ "NO DATA")) := by
  unfold checkOnce
  dsimp only
  rcases h1 : (mergeState s m).latlon1 with _ | p <;>
    rcases h2 : (mergeState s m).latlon2 with _ | q <;>
      simp only [h1, h2] <;>
      repeat' split
  all_goals simp

/-- C10: in every reachable state of a monitor instance, the stored system
id of a vehicle is unknown iff its stored altitude is unknown — both start
unset and are always assigned together from the same local-position
message. -/
theorem sysid_altitude_invariant (s : MonitorState) (h : Reachable s) :
    ((s.sysid1 = none) ↔ (s.altitude1 = none)) ∧
    ((s.sysid2 = none) ↔ (s.altitude2 = none)) := by
  induction h with
  | init hth vth => simp [initState]
  | stepCheck s' m _ ih =>
      rw [checkOnce_fst]
      cases hp1 : m.pos1 <;> cases hp2 : m.pos2 <;>
        simp [mergeState, read_altitude, hp1, hp2, ih.1, ih.2]
  | stepMonitor s' m _ ih =>
      rw [monitorCycle_fst]
      cases hp1 : m.pos1 <;> cases hp2 : m.pos2 <;>
        simp [mergeState, read_altitude, hp1, hp2, ih.1, ih.2]

/-- Witness for C10: the state reached by one `check_once` cycle that
delivered only a GPS message for vehicle 1 — its position is known while
system id and altitude are both still unknown — satisfies the invariant. -/
theorem sysid_altitude_invariant_witness :
    (((checkOnce (initState 15 5)
        { gps1 := some ⟨100, 200⟩, gps2 := none
          pos1 := none, pos2 := none }).1.sysid1 = none) ↔
      ((checkOnce (initState 15 5)
        { gps1 := some ⟨100, 200⟩, gps2 := none
          pos1 := none, pos2 := none }).1.altitude1 = none)) ∧
    (((checkOnce (initState 15 5)
        { gps1 := some ⟨100, 200⟩, gps2 := none
          pos1 := none, pos2 := none }).1.sysid2 = none) ↔
      ((checkOnce (initState 15 5)
        { gps1 := some ⟨100, 200⟩, gps2 := none
          pos1 := none, pos2 := none }).1.altitude2 = none)) :=
  sysid_altitude_invariant _ (Reachable.stepCheck _ _ (Reachable.init 15 5))

end ProximityWarning
